import Mathlib

/-!
Shallow embedding of `jarvis_chatbot.py`: the SQL safety gate
(`validate_sql_query`), the query executor (`execute_sql_query`), the
resource-release helper (`close_db_connection`) and the orchestrator
(`call_chatbot`), together with theorems settling the specification claims.

The gate uses Python's `re.search(f.. b{keyword} b.., sql, re.IGNORECASE)`
with word-boundary anchors around each denylist entry; we embed those
regex semantics (ASCII word characters, as all inputs of interest are
ASCII) and Python's truthiness of the two possible return shapes of
`validate_sql_query` (a bare `True`, or the pair `(False, message)`).
-/

namespace Jarvis

/-- Word characters of the regex class `\w` (ASCII fragment): letters,
digits and underscore. -/
def isWordChar (c : Char) : Bool :=
  c.isAlphanum || c == '_'

/-- Case-insensitive character comparison, as under `re.IGNORECASE`. -/
def ciEq (a b : Char) : Bool :=
  a.toLower == b.toLower

/-- Whether the pattern (first list) matches, case-insensitively, a prefix
of the text (second list). -/
def ciMatchesHere : List Char → List Char → Bool
  | [], _ => true
  | _ :: _, [] => false
  | k :: ks, c :: cs => ciEq k c && ciMatchesHere ks cs

/-- Whether position `j` of the text holds a word character; out-of-range
positions count as non-word, as at the ends of a regex subject. -/
def wordAt (s : List Char) (j : Nat) : Bool :=
  match s.get? j with
  | some c => isWordChar c
  | none => false

/-- The regex word-boundary test `\b` at gap position `p` (between the
characters at `p - 1` and `p`): the two sides disagree on word-ness. -/
def boundaryAt (s : List Char) (p : Nat) : Bool :=
  (if p == 0 then false else wordAt s (p - 1)) != wordAt s p

/-- Embeds `re.search(f.. b{k} b.., s, re.IGNORECASE) is not None`:
some starting position carries a word boundary, a case-insensitive
occurrence of `k`, and a word boundary after it. -/
def searchWordCI (k : List Char) (s : List Char) : Bool :=
  (List.range (s.length + 1)).any fun i =>
    boundaryAt s i && ciMatchesHere k (s.drop i) && boundaryAt s (i + k.length)

/-- The denylist of `validate_sql_query`, in its source order. -/
def disallowed_keywords : List String :=
  ["INSERT", "UPDATE", "DELETE", "DROP", ";", "--", "CREATE", "ALTER"]

/-- The two return shapes of the Python function `validate_sql_query`:
a bare boolean (`return True`) or a pair (`return False, message`). -/
inductive PyRet
  | bool (b : Bool)
  | pair (b : Bool) (msg : String)
deriving DecidableEq

/-- Python truthiness of a `PyRet` value: a bare boolean is its own truth
value, while a 2-tuple is a non-empty sequence, hence truthy in Python
regardless of its components. -/
def PyRet.truthy : PyRet → Bool
  | .bool b => b
  | .pair _ _ => true

/-- Whether the verdict is a rejection, i.e. the `(False, message)` shape. -/
def PyRet.isRejected : PyRet → Bool
  | .bool _ => false
  | .pair _ _ => true

/-- The safety gate: scans the denylist in order and returns
`(False, message)` for the first entry whose word-bounded, case-insensitive
regex search hits, else the bare `True`. -/
def validate_sql_query (sql_query : String) : PyRet :=
  match disallowed_keywords.find?
      (fun keyword => searchWordCI keyword.toList sql_query.toList) with
  | some keyword => PyRet.pair false ("Disallowed SQL keyword detected: " ++ keyword)
  | none => PyRet.bool true

/-- Scalar values of a result cell. -/
inductive Val
  | int (n : Int)
  | str (s : String)
  | null
deriving DecidableEq

/-- The tabular projection `pd.DataFrame(result, columns=column_names)`:
an ordered column-name list and the ordered rows. -/
structure DataFrame where
  columns : List String
  rows : List (List Val)
deriving DecidableEq

/-- Outcome of a Python call: a normal return or a raised exception
carrying a message. -/
inductive PyRes (α : Type)
  | ok (a : α)
  | exn (msg : String)
deriving DecidableEq

/-- The database back end as seen through a cursor: a statement either
yields result metadata (a description, each entry a name paired with a
type code) together with all rows, or raises. -/
def Db : Type :=
  String → PyRes (List (String × Nat) × List (List Val))

/-- Embeds `execute_sql_query`: run the statement, fetch the complete
result set, and derive the column names as `desc[0]` of each entry of
`cursor.description`; returns the raw rows and the tabular projection. -/
def execute_sql_query (db : Db) (sql_query : String) :
    PyRes (List (List Val) × DataFrame) :=
  match db sql_query with
  | .exn m => .exn m
  | .ok (desc, rows) => .ok (rows, ⟨desc.map Prod.fst, rows⟩)

/-- Observable events of one interaction, in order of occurrence. -/
inductive Event
  | connAcquired
  | cursorAcquired
  | executed (sql : String)
  | wroteError (msg : String)
  | wroteSql (sql : String)
  | wroteExplanation (text : String)
  | displayedTable (df : DataFrame)
  | cursorClosed
  | connClosed
deriving DecidableEq

/-- Embeds `close_db_connection(conn, cursor)`: close the cursor if one
was provided (`if cursor:`), then the connection if one was provided
(`if conn:`); `None` arguments are falsy and skipped. -/
def close_db_connection (conn : Option Unit) (cursor : Option Unit) : List Event :=
  (match cursor with
   | some _ => [Event.cursorClosed]
   | none => []) ++
  (match conn with
   | some _ => [Event.connClosed]
   | none => [])

/-- The external collaborators of `call_chatbot`: connection acquisition,
the SQL generator, the database, and the interpretation call. Each may
raise. -/
structure Env where
  connect : PyRes Unit
  gen : PyRes String
  db : Db
  interpretation : PyRes String

/-- Final outcome of `call_chatbot`: a normal return, or an exception
propagating uncaught out of the function. -/
inductive Outcome
  | normal
  | uncaught (msg : String)
deriving DecidableEq

/-- Embeds `call_chatbot`, line for line. The connection is acquired
first, then the SQL is generated — both outside any `try`, so their
exceptions propagate and skip every cleanup. The gate verdict is tested
with `if not validate_sql_query(sql_query)`. Only the execution,
interpretation and display steps sit inside the `try`; its `except`
writes the error message and its `finally` calls
`close_db_connection(conn, cursor=None)`. -/
def call_chatbot (env : Env) : Outcome × List Event :=
  match env.connect with
  | .exn m => (.uncaught m, [])
  | .ok _ =>
    match env.gen with
    | .exn m => (.uncaught m, [.connAcquired])
    | .ok sql_query =>
      if !(validate_sql_query sql_query).truthy then
        (.uncaught "Keywords or characters detected that could trigger an attack",
         [.connAcquired])
      else
        match execute_sql_query env.db sql_query with
        | .exn m =>
          (.normal,
           [.connAcquired, .cursorAcquired, .executed sql_query,
            .wroteError ("An error occurred: " ++ m)]
             ++ close_db_connection (some ()) none)
        | .ok (_result, df) =>
          match env.interpretation with
          | .exn m =>
            (.normal,
             [.connAcquired, .cursorAcquired, .executed sql_query,
              .wroteError ("An error occurred: " ++ m)]
               ++ close_db_connection (some ()) none)
          | .ok text =>
            (.normal,
             [.connAcquired, .cursorAcquired, .executed sql_query,
              .wroteSql sql_query, .wroteExplanation text, .displayedTable df]
               ++ close_db_connection (some ()) none)

/-- Whether an event is the closing of the connection. -/
def isConnClosed : Event → Bool
  | .connClosed => true
  | _ => false

/-- Whether an event is the closing of the cursor. -/
def isCursorClosed : Event → Bool
  | .cursorClosed => true
  | _ => false

/-- Whether an event displays a result table. -/
def isTableDisplay : Event → Bool
  | .displayedTable _ => true
  | _ => false

end Jarvis

namespace Jarvis

/-! Shared helper lemmas and sample environments. -/

/-- The gate's verdict is truthy for every input: an allowed statement
yields the bare `True`, a rejected one yields the non-empty pair
`(False, message)`, and Python treats both as truthy. -/
theorem validate_truthy (s : String) : (validate_sql_query s).truthy = true := by
  unfold validate_sql_query
  rcases h : disallowed_keywords.find?
      (fun keyword => searchWordCI keyword.toList s.toList) with _ | k <;>
    simp only [h, PyRet.truthy]

/-- If some denylist entry matches, `validate_sql_query` returns the
rejection pair for some entry of the denylist that genuinely matches. -/
theorem validate_pair_of_match {s k : String} (hk : k ∈ disallowed_keywords)
    (hm : searchWordCI k.toList s.toList = true) :
    ∃ kk, kk ∈ disallowed_keywords ∧ searchWordCI kk.toList s.toList = true ∧
      validate_sql_query s =
        PyRet.pair false ("Disallowed SQL keyword detected: " ++ kk) := by
  rcases hf : disallowed_keywords.find?
      (fun keyword => searchWordCI keyword.toList s.toList) with _ | kk
  · exact absurd hm (by simpa using List.find?_eq_none.mp hf k hk)
  · refine ⟨kk, List.mem_of_find?_eq_some hf, by simpa using List.find?_some hf, ?_⟩
    unfold validate_sql_query
    rw [hf]

/-- A `find?` over a list splits: if every element before `k` fails the
predicate and `k` satisfies it, the search returns `k`. -/
theorem find?_append_first {α : Type} (p : α → Bool) :
    ∀ (l1 : List α) (k : α) (l2 : List α), (∀ x ∈ l1, p x = false) → p k = true →
      (l1 ++ k :: l2).find? p = some k := by
  intro l1
  induction l1 with
  | nil =>
    intro k l2 _ hk
    simp [List.find?_cons_of_pos, hk]
  | cons a l ih =>
    intro k l2 h hk
    have ha : p a = false := h a (by simp)
    rw [List.cons_append, List.find?_cons_of_neg _ (by simp [ha])]
    exact ih k l2 (fun x hx => h x (by simp [hx])) hk

/-- A database that answers every statement with one row of one column. -/
def dbOk : Db := fun _ => PyRes.ok ([("order_id", 23)], [[Val.int 1]])

/-- A database whose execution always raises. -/
def dbFail : Db := fun _ => PyRes.exn "relation missing"

/-- An environment whose generator produces a mutating statement and
whose other collaborators all succeed. -/
def envDelete : Env := ⟨PyRes.ok (), PyRes.ok "DELETE FROM Orders", dbOk, PyRes.ok "done"⟩

/-- An environment whose generator produces a table-dropping statement
and whose other collaborators all succeed. -/
def envDrop : Env := ⟨PyRes.ok (), PyRes.ok "DROP TABLE Orders", dbOk, PyRes.ok "done"⟩

/-- An environment whose generation call raises. -/
def envGenFail : Env := ⟨PyRes.ok (), PyRes.exn "model timeout", dbOk, PyRes.ok "done"⟩

/-- An environment whose query execution raises. -/
def envExecFail : Env := ⟨PyRes.ok (), PyRes.ok "SELECT 1", dbFail, PyRes.ok "done"⟩

/-- An environment where every collaborator succeeds. -/
def envAllOk : Env := ⟨PyRes.ok (), PyRes.ok "SELECT 1", dbOk, PyRes.ok "done"⟩

/-! Claim C1. -/

/-- C1: the gate verdict is truthy for every input string, so once the
connection and the generation succeed, the unsafe-query `ValueError`
branch of `call_chatbot` never fires and the generated statement is
always passed to execution, whatever its content. -/
theorem c1_gate_check_always_truthy (sql : String) (env : Env)
    (hc : env.connect = PyRes.ok ()) (hg : env.gen = PyRes.ok sql) :
    (validate_sql_query sql).truthy = true ∧
    (call_chatbot env).1 ≠
      Outcome.uncaught "Keywords or characters detected that could trigger an attack" ∧
    Event.executed sql ∈ (call_chatbot env).2 := by
  refine ⟨validate_truthy sql, ?_⟩
  rcases hx : execute_sql_query env.db sql with ⟨r, df⟩ | m <;>
    rcases hi : env.interpretation with t | m2 <;>
    simp [call_chatbot, hc, hg, validate_truthy, hx, hi, close_db_connection]

/-- C1 witness: with a generated `DELETE FROM Orders` the pipeline still
executes the statement. -/
theorem c1_witness :
    (validate_sql_query "DELETE FROM Orders").truthy = true ∧
    (call_chatbot envDelete).1 ≠
      Outcome.uncaught "Keywords or characters detected that could trigger an attack" ∧
    Event.executed "DELETE FROM Orders" ∈ (call_chatbot envDelete).2 :=
  c1_gate_check_always_truthy "DELETE FROM Orders" envDelete rfl rfl

end Jarvis

namespace Jarvis

/-! Claim C2. -/

/-- C2 (code bug): a statement the gate rejects — `DROP TABLE Orders`
draws the `(False, message)` verdict — is nevertheless passed to the
Query Executor, after the database connection was already acquired:
the pipeline never halts on rejection. -/
theorem c2_rejected_statement_still_executed :
    (validate_sql_query "DROP TABLE Orders").isRejected = true ∧
    Event.connAcquired ∈ (call_chatbot envDrop).2 ∧
    Event.executed "DROP TABLE Orders" ∈ (call_chatbot envDrop).2 := by
  decide

/-! Claim C3. -/

/-- C3 counterexample: `SELECT 1;` contains a literal semicolon, yet the
gate returns the bare `True` (ALLOWED), because the pattern `\b;\b`
requires word characters on both sides of the semicolon and the
statement ends right after it. -/
theorem c3_counterexample_trailing_semicolon_allowed :
    "SELECT 1;".toList.contains ';' = true ∧
    validate_sql_query "SELECT 1;" = PyRet.bool true := by
  decide

/-- C3 amended: a semicolon or comment sequence is rejected exactly when
its occurrence carries a regex word boundary on each side — that is,
when it is immediately preceded and followed by word characters; under
that proviso the gate indeed returns REJECTED. -/
theorem c3_amended_word_bounded_semicolon_or_dashes_rejected (s : String)
    (h : searchWordCI ";".toList s.toList = true ∨
         searchWordCI "--".toList s.toList = true) :
    (validate_sql_query s).isRejected = true := by
  rcases h with h | h
  · obtain ⟨kk, -, -, hv⟩ := validate_pair_of_match (s := s) (k := ";") (by decide) h
    rw [hv]
    rfl
  · obtain ⟨kk, -, -, hv⟩ := validate_pair_of_match (s := s) (k := "--") (by decide) h
    rw [hv]
    rfl

/-- C3 witness: `a;b` has a word-bounded semicolon and is rejected. -/
theorem c3_witness :
    searchWordCI ";".toList "a;b".toList = true ∧
    (validate_sql_query "a;b").isRejected = true :=
  ⟨by decide,
   c3_amended_word_bounded_semicolon_or_dashes_rejected "a;b" (Or.inl (by decide))⟩

/-! Claim C4. -/

/-- C4: whenever one of the six mutating keywords occurs as a whole-word,
case-insensitive match, the gate returns the rejection pair, and the
message carries a denylist token that genuinely matched the statement. -/
theorem c4_keyword_match_rejected (s : String)
    (h : ∃ k ∈ (["INSERT", "UPDATE", "DELETE", "DROP", "CREATE", "ALTER"] : List String),
      searchWordCI k.toList s.toList = true) :
    ∃ kk, kk ∈ disallowed_keywords ∧ searchWordCI kk.toList s.toList = true ∧
      validate_sql_query s =
        PyRet.pair false ("Disallowed SQL keyword detected: " ++ kk) := by
  obtain ⟨k, hk, hm⟩ := h
  have hk8 : k ∈ disallowed_keywords := by
    simp only [List.mem_cons, List.not_mem_nil, or_false] at hk
    rcases hk with h | h | h | h | h | h <;> subst h <;> decide
  exact validate_pair_of_match hk8 hm

/-- C4 witness: the lowercase `insert into t values (1)` matches INSERT
case-insensitively and is rejected with that token. -/
theorem c4_witness :
    (∃ k ∈ (["INSERT", "UPDATE", "DELETE", "DROP", "CREATE", "ALTER"] : List String),
      searchWordCI k.toList "insert into t values (1)".toList = true) ∧
    ∃ kk, kk ∈ disallowed_keywords ∧
      searchWordCI kk.toList "insert into t values (1)".toList = true ∧
      validate_sql_query "insert into t values (1)" =
        PyRet.pair false ("Disallowed SQL keyword detected: " ++ kk) :=
  ⟨⟨"INSERT", by decide, by decide⟩,
   c4_keyword_match_rejected "insert into t values (1)" ⟨"INSERT", by decide, by decide⟩⟩

/-! Claim C5. -/

/-- C5: a statement on which no denylist entry has a word-bounded,
case-insensitive match is ALLOWED — the gate returns the bare `True`;
in particular whole-word matching protects identifiers such as
`Updated_At` that merely contain a keyword as a substring. -/
theorem c5_no_match_allowed (s : String)
    (h : disallowed_keywords.all
      (fun keyword => !searchWordCI keyword.toList s.toList) = true) :
    validate_sql_query s = PyRet.bool true := by
  have hnone : disallowed_keywords.find?
      (fun keyword => searchWordCI keyword.toList s.toList) = none := by
    rw [List.find?_eq_none]
    intro x hx
    have := List.all_eq_true.mp h x hx
    simp only [Bool.not_eq_true'] at this
    simpa using this
  unfold validate_sql_query
  rw [hnone]

/-- C5 witness: a SELECT mentioning the identifier `Updated_At` triggers
no denylist entry and is ALLOWED. -/
theorem c5_witness :
    disallowed_keywords.all
      (fun keyword =>
        !searchWordCI keyword.toList "SELECT Order_Id, Updated_At FROM Orders".toList) = true ∧
    validate_sql_query "SELECT Order_Id, Updated_At FROM Orders" = PyRet.bool true :=
  ⟨by decide, c5_no_match_allowed "SELECT Order_Id, Updated_At FROM Orders" (by decide)⟩

end Jarvis

namespace Jarvis

/-! Claim C6. -/

/-- C6 counterexample: in `UPDATE a INSERT` the token `UPDATE` occurs at
the very start of the text — before `INSERT` — yet the verdict carries
`INSERT`, because the gate scans the denylist in its own order, not in
text-position order. -/
theorem c6_counterexample_denylist_order_not_text_order :
    validate_sql_query "UPDATE a INSERT" =
      PyRet.pair false "Disallowed SQL keyword detected: INSERT" ∧
    ciMatchesHere "UPDATE".toList "UPDATE a INSERT".toList = true := by
  decide

/-- C6 amended: when several denylist entries match, the verdict carries
the first entry in the denylist's own order (INSERT, UPDATE, DELETE,
DROP, `;`, `--`, CREATE, ALTER) that matches — not the token whose
occurrence comes first in the statement text. -/
theorem c6_amended_first_match_in_denylist_order (s k : String)
    (pre post : List String)
    (hsplit : disallowed_keywords = pre ++ k :: post)
    (hpre : ∀ x ∈ pre, searchWordCI x.toList s.toList = false)
    (hk : searchWordCI k.toList s.toList = true) :
    validate_sql_query s =
      PyRet.pair false ("Disallowed SQL keyword detected: " ++ k) := by
  unfold validate_sql_query
  rw [hsplit, find?_append_first _ pre k post hpre hk]

/-- C6 witness: on `alter table t` every denylist entry before `ALTER`
fails, `ALTER` matches case-insensitively, and the verdict carries it. -/
theorem c6_witness :
    validate_sql_query "alter table t" =
      PyRet.pair false ("Disallowed SQL keyword detected: " ++ "ALTER") :=
  c6_amended_first_match_in_denylist_order "alter table t" "ALTER"
    ["INSERT", "UPDATE", "DELETE", "DROP", ";", "--", "CREATE"] []
    rfl (by decide) (by decide)

/-! Claim C7. -/

/-- C7 counterexample: a generation failure — the model call raising
`model timeout` — happens outside the `try` block, so the exception
propagates uncaught out of `call_chatbot`. -/
theorem c7_counterexample_generation_failure_uncaught :
    (call_chatbot envGenFail).1 = Outcome.uncaught "model timeout" := by
  decide

/-- C7 amended: once connection acquisition and SQL generation succeed,
no exception propagates uncaught — execution and interpretation errors
are caught by the `except` clause and surfaced as a user message; only
connection and generation failures (before the `try`) propagate. -/
theorem c7_amended_no_uncaught_after_generation (env : Env) (sql : String)
    (hc : env.connect = PyRes.ok ()) (hg : env.gen = PyRes.ok sql) :
    (call_chatbot env).1 = Outcome.normal ∧
    ∀ m, execute_sql_query env.db sql = PyRes.exn m →
      Event.wroteError ("An error occurred: " ++ m) ∈ (call_chatbot env).2 := by
  constructor
  · rcases hx : execute_sql_query env.db sql with ⟨r, df⟩ | m <;>
      rcases hi : env.interpretation with t | m2 <;>
      simp [call_chatbot, hc, hg, validate_truthy, hx, hi, close_db_connection]
  · intro m hm
    simp [call_chatbot, hc, hg, validate_truthy, hm, close_db_connection]

/-- C7 witness: with a failing database the interaction returns normally
and surfaces the underlying message. -/
theorem c7_witness :
    (call_chatbot envExecFail).1 = Outcome.normal ∧
    Event.wroteError ("An error occurred: " ++ "relation missing") ∈
      (call_chatbot envExecFail).2 :=
  ⟨(c7_amended_no_uncaught_after_generation envExecFail "SELECT 1" rfl rfl).1,
   (c7_amended_no_uncaught_after_generation envExecFail "SELECT 1" rfl rfl).2
     "relation missing" rfl⟩

/-! Claim C8. -/

/-- C8 counterexample: on a fully successful interaction the cursor is
acquired but never closed (`close_db_connection` receives
`cursor=None`), and when generation fails the acquired connection is
never closed (the `finally` of the `try` block is never reached). -/
theorem c8_counterexample_cursor_unreleased_conn_leaked :
    ((call_chatbot envAllOk).2.countP isCursorClosed = 0 ∧
     Event.cursorAcquired ∈ (call_chatbot envAllOk).2) ∧
    (Event.connAcquired ∈ (call_chatbot envGenFail).2 ∧
     Event.connClosed ∉ (call_chatbot envGenFail).2) := by
  decide

/-- C8 amended: on every interaction that reaches the `try` block —
success, execution exception, interpretation exception — the connection
is released exactly once and the cursor is never released; on an
interaction whose generation fails, not even the connection is
released. -/
theorem c8_amended_release_behavior (env env2 : Env) (sql m : String)
    (hc : env.connect = PyRes.ok ()) (hg : env.gen = PyRes.ok sql)
    (hc2 : env2.connect = PyRes.ok ()) (hg2 : env2.gen = PyRes.exn m) :
    ((call_chatbot env).2.countP isConnClosed = 1 ∧
     (call_chatbot env).2.countP isCursorClosed = 0) ∧
    Event.connClosed ∉ (call_chatbot env2).2 := by
  constructor
  · rcases hx : execute_sql_query env.db sql with ⟨r, df⟩ | mm <;>
      rcases hi : env.interpretation with t | m2 <;>
      simp [call_chatbot, hc, hg, validate_truthy, hx, hi, close_db_connection,
            List.countP_cons, List.countP_nil, isConnClosed, isCursorClosed]
  · simp [call_chatbot, hc2, hg2]

/-- C8 witness: the release behavior at a fully successful interaction
and at a generation-failure interaction. -/
theorem c8_witness :
    (((call_chatbot envAllOk).2.countP isConnClosed = 1 ∧
      (call_chatbot envAllOk).2.countP isCursorClosed = 0) ∧
     Event.connClosed ∉ (call_chatbot envGenFail).2) :=
  c8_amended_release_behavior envAllOk envGenFail "SELECT 1" "model timeout"
    rfl rfl rfl rfl

/-! Claim C9. -/

/-- C9 counterexample: when execution fails, the cursor — although
acquired — is released zero times, not exactly once:
`close_db_connection` is called with `cursor=None`. -/
theorem c9_counterexample_cursor_not_released_on_failure :
    Event.cursorAcquired ∈ (call_chatbot envExecFail).2 ∧
    (call_chatbot envExecFail).2.countP isCursorClosed = 0 := by
  decide

/-- C9 amended: when query execution fails, the error is surfaced
carrying the underlying message, no result table is displayed, and the
connection is released exactly once — but the cursor is never
released. -/
theorem c9_amended_execution_failure_behavior (env : Env) (sql m : String)
    (hc : env.connect = PyRes.ok ()) (hg : env.gen = PyRes.ok sql)
    (hx : execute_sql_query env.db sql = PyRes.exn m) :
    Event.wroteError ("An error occurred: " ++ m) ∈ (call_chatbot env).2 ∧
    (call_chatbot env).2.countP isTableDisplay = 0 ∧
    (call_chatbot env).2.countP isConnClosed = 1 ∧
    (call_chatbot env).2.countP isCursorClosed = 0 := by
  simp [call_chatbot, hc, hg, validate_truthy, hx, close_db_connection,
        List.countP_cons, List.countP_nil, isConnClosed, isCursorClosed,
        isTableDisplay]

/-- C9 witness: the execution-failure behavior at a concrete failing
database. -/
theorem c9_witness :
    Event.wroteError ("An error occurred: " ++ "relation missing") ∈
      (call_chatbot envExecFail).2 ∧
    (call_chatbot envExecFail).2.countP isTableDisplay = 0 ∧
    (call_chatbot envExecFail).2.countP isConnClosed = 1 ∧
    (call_chatbot envExecFail).2.countP isCursorClosed = 0 :=
  c9_amended_execution_failure_behavior envExecFail "SELECT 1" "relation missing"
    rfl rfl rfl

/-! Claim C10. -/

/-- C10: for every executed statement the returned column names are the
name components of the result metadata, the complete row list is
fetched, and the tabular projection carries exactly those columns and
rows in order. -/
theorem c10_columns_from_metadata (db : Db) (sql : String)
    (desc : List (String × Nat)) (rows : List (List Val))
    (h : db sql = PyRes.ok (desc, rows)) :
    execute_sql_query db sql =
      PyRes.ok (rows, DataFrame.mk (desc.map Prod.fst) rows) := by
  unfold execute_sql_query
  rw [h]

/-- A database knowing exactly the statement `SELECT 1 AS x`. -/
def dbSelectX : Db := fun sql =>
  if sql = "SELECT 1 AS x" then PyRes.ok ([("x", 23)], [[Val.int 1]])
  else PyRes.exn "relation missing"

/-- C10 witness: `SELECT 1 AS x` yields columns `["x"]` — from the
metadata, not the statement text — and rows `[[1]]`. -/
theorem c10_witness :
    execute_sql_query dbSelectX "SELECT 1 AS x" =
      PyRes.ok ([[Val.int 1]], DataFrame.mk ["x"] [[Val.int 1]]) :=
  c10_columns_from_metadata dbSelectX "SELECT 1 AS x" [("x", 23)] [[Val.int 1]]
    (by decide)

end Jarvis
